import Mathlib

/-!
# OpenClXorTwoArrays: a shallow embedding of `src/main.cpp`

The host program is one function, `main`, that talks to an OpenCL driver.  The
driver is the only source of non-determinism, so the embedding takes every
answer of the driver as an input (`Driver`) and threads a log of what the
program did (`Event`) through an exception monad `M`.  The log survives a
failure, which is what makes statements about ordering (what was printed or
released before the program gave up) expressible.
-/

namespace XorTwoArrays

/-! ## Constants of `CL/cl.h` -/

/-- Status `CL_SUCCESS` of the Khronos header `CL/cl.h`. -/
def CL_SUCCESS : Int := 0

/-- Bit `CL_DEVICE_TYPE_CPU` (`1 << 1`) of the Khronos header `CL/cl.h`. -/
def CL_DEVICE_TYPE_CPU : Nat := 1 <<< 1

/-- Bit `CL_DEVICE_TYPE_GPU` (`1 << 2`) of the Khronos header `CL/cl.h`. -/
def CL_DEVICE_TYPE_GPU : Nat := 1 <<< 2

/-- Bit `CL_DEVICE_TYPE_ACCELERATOR` (`1 << 3`) of the Khronos header `CL/cl.h`. -/
def CL_DEVICE_TYPE_ACCELERATOR : Nat := 1 <<< 3

/-! ## Failures, resources, events -/

/-- The only exception type `main.cpp` throws: `std::runtime_error(what)`. -/
inductive Failure where
  | runtime_error (what : String)
  deriving DecidableEq, Repr

/-- The seven driver objects `main` creates, named after the variables that hold them. -/
inductive Resource where
  | context
  | commandQueue
  | a_gpu
  | b_gpu
  | c_gpu
  | program
  | kernel
  deriving DecidableEq, Repr

/-- One observable step of `main`: a call into the OpenCL API (with the
arguments that matter here), a line written to `std::cout`, or one evaluation
of the comparison on line 172, which reads the three host arrays at `index`. -/
inductive Event where
  | clGetPlatformIDs
  | clGetDeviceIDs (platform : Nat)
  | clGetDeviceInfo (device : Nat)
  | clCreateContext (platform device : Nat)
  | clCreateCommandQueue (device : Nat)
  | clCreateBuffer (buffer : Resource)
  | clCreateProgramWithSource (source : String)
  | clBuildProgram
  | clGetProgramBuildInfo
  | clCreateKernel (name : String)
  | clSetKernelArg (index : Nat)
  | clEnqueueNDRangeKernel (globalWorkSize localWorkSize : Nat)
  | clWaitForEvents
  | clEnqueueReadBuffer (size : Nat)
  | clReleaseProgram
  | clReleaseKernel
  | clReleaseMemObject (buffer : Resource)
  | clReleaseCommandQueue
  | clReleaseContext
  | print (line : String)
  | examine (index : Nat)
  deriving DecidableEq, Repr

/-- The resource an event acquires, if it is one of the `clCreate*` calls. -/
def Event.acquires : Event → Option Resource
  | .clCreateContext _ _ => some .context
  | .clCreateCommandQueue _ => some .commandQueue
  | .clCreateBuffer b => some b
  | .clCreateProgramWithSource _ => some .program
  | .clCreateKernel _ => some .kernel
  | _ => none

/-- The resource an event releases, if it is one of the `clRelease*` calls. -/
def Event.releases : Event → Option Resource
  | .clReleaseProgram => some .program
  | .clReleaseKernel => some .kernel
  | .clReleaseMemObject b => some b
  | .clReleaseCommandQueue => some .commandQueue
  | .clReleaseContext => some .context
  | _ => none

/-- Resources acquired along a log, in order of acquisition. -/
def acquired (log : List Event) : List Resource := log.filterMap Event.acquires

/-- Resources released along a log, in order of release. -/
def released (log : List Event) : List Resource := log.filterMap Event.releases

/-! ## The monad of `main`: exceptions over a log that survives them -/

/-- A computation reads the log so far and returns a value or a thrown
failure, together with the extended log. -/
def M (α : Type) : Type := List Event → Except Failure α × List Event

/-- Sequencing: run `m`; on a value go on with `f` from the extended log, on a
failure stop and keep the log. -/
def M.bind {α β : Type} (m : M α) (f : α → M β) : M β := fun log =>
  match m log with
  | (.ok a, log1) => f a log1
  | (.error e, log1) => (.error e, log1)

instance : Monad M where
  pure a := fun log => (.ok a, log)
  bind := M.bind

instance : MonadExcept Failure M where
  throw e := fun log => (.error e, log)
  tryCatch m h := fun log =>
    match m log with
    | (.ok a, log1) => (.ok a, log1)
    | (.error e, log1) => h e log1

/-- Append one event to the log. -/
def emit (ev : Event) : M Unit := fun log => (.ok (), log ++ [ev])

/-! ## Error signalling (lines 15-30) -/

/-- The template `to_string` at the two types it is used at (`cl_int`, `int`):
`ostringstream << value` writes the decimal numeral, with a leading `-` for a
negative value. -/
def to_string (value : Int) : String := toString value

/-- The message built on line 26. -/
def errorMessage (err : Int) (filename : String) (line : Int) : String :=
  "OpenCL error code " ++ to_string err ++ " encountered at " ++ filename ++ ":" ++ to_string line

/-- Lines 22-28, `reportError`; `OCL_SAFE_CALL(expr)` is
`reportError expr __FILE__ __LINE__`. -/
def reportError (err : Int) (filename : String) (line : Int) : M Unit :=
  if CL_SUCCESS = err then
    pure ()
  else
    throw (Failure.runtime_error (errorMessage err filename line))

/-! ## Device selection (lines 42-74) -/

/-- What the driver reports for one device: its handle, the status of the
`clGetDeviceInfo` query and the `cl_device_type` bitfield the query writes. -/
structure DeviceInfo where
  id : Nat
  infoStatus : Int
  deviceType : Nat
  deriving DecidableEq, Repr

/-- What the driver reports for one platform: its handle, the statuses of the
two `clGetDeviceIDs` calls (count, then handles) and its devices in order. -/
structure PlatformInfo where
  id : Nat
  countStatus : Int
  idsStatus : Int
  devices : List DeviceInfo
  deriving DecidableEq, Repr

/-- The four locals declared on lines 42-45.  The two handles are declared
uninitialised in the source; `0` stands for that indeterminate value, which is
never read unless `anyDeviceSelected` was set together with them. -/
structure Selection where
  gpuDeviceSelected : Bool
  anyDeviceSelected : Bool
  selectedPlatform : Nat
  selectedDevice : Nat
  deriving DecidableEq, Repr

/-- Lines 52-69, the inner loop over the devices of `platform`.  The GPU branch
ends the loop (`break`); the CPU branch records the device and goes on. -/
def deviceLoop (file : String) (platform : Nat) : List DeviceInfo → Selection → M Selection
  | [], s => pure s
  | device :: rest, s => do
    emit (.clGetDeviceInfo device.id)
    reportError device.infoStatus file 55
    if device.deviceType &&& CL_DEVICE_TYPE_GPU ≠ 0 then
      pure { gpuDeviceSelected := true, anyDeviceSelected := true,
             selectedPlatform := platform, selectedDevice := device.id }
    else if device.deviceType &&& CL_DEVICE_TYPE_CPU ≠ 0 then
      deviceLoop file platform rest
        { s with anyDeviceSelected := true, selectedPlatform := platform,
                 selectedDevice := device.id }
    else
      deviceLoop file platform rest s

/-- Lines 46-72, the outer loop over the platforms, left as soon as the inner
loop has selected a GPU. -/
def platformLoop (file : String) : List PlatformInfo → Selection → M Selection
  | [], s => pure s
  | platform :: rest, s => do
    emit (.clGetDeviceIDs platform.id)
    reportError platform.countStatus file 49
    emit (.clGetDeviceIDs platform.id)
    reportError platform.idsStatus file 51
    let s1 ← deviceLoop file platform.id platform.devices s
    if s1.gpuDeviceSelected then
      pure s1
    else
      platformLoop file rest s1

/-- Lines 42-74: the selection loop with its initial state and the final
check; the result is the pair `(selectedPlatform, selectedDevice)`. -/
def selectDevice (file : String) (platforms : List PlatformInfo) : M (Nat × Nat) := do
  let s ← platformLoop file platforms
    { gpuDeviceSelected := false, anyDeviceSelected := false,
      selectedPlatform := 0, selectedDevice := 0 }
  if !s.anyDeviceSelected then
    throw (Failure.runtime_error "No device found")
  pure (s.selectedPlatform, s.selectedDevice)

/-! ## Vocabulary for the statements -/

/-- The device has the GPU bit set in its type bitfield. -/
def gpuCapable (device : DeviceInfo) : Bool :=
  decide (device.deviceType &&& CL_DEVICE_TYPE_GPU ≠ 0)

/-- The device has the CPU bit set in its type bitfield. -/
def cpuCapable (device : DeviceInfo) : Bool :=
  decide (device.deviceType &&& CL_DEVICE_TYPE_CPU ≠ 0)

/-- All devices paired with the platform that lists them, in
platform-then-device order. -/
def enumerationOrder : List PlatformInfo → List (PlatformInfo × DeviceInfo)
  | [] => []
  | platform :: rest =>
    platform.devices.map (fun device => (platform, device)) ++ enumerationOrder rest

/-- Every query of the selection loop returns `CL_SUCCESS`: both
`clGetDeviceIDs` calls of each platform and `clGetDeviceInfo` of each device. -/
def queriesSucceed (platforms : List PlatformInfo) : Bool :=
  platforms.all fun platform =>
    decide (platform.countStatus = CL_SUCCESS) && decide (platform.idsStatus = CL_SUCCESS) &&
      platform.devices.all fun device => decide (device.infoStatus = CL_SUCCESS)

/-- The state update of the CPU branch (lines 64-68) for a device that is not
GPU-capable. -/
def recordCpu (s : Selection) (x : PlatformInfo × DeviceInfo) : Selection :=
  if cpuCapable x.2 then
    { s with anyDeviceSelected := true, selectedPlatform := x.1.id, selectedDevice := x.2.id }
  else s

/-- The selection loop read as one pass over `enumerationOrder`: stop at the
first GPU-capable device, record CPU-capable ones on the way. -/
def scan : List (PlatformInfo × DeviceInfo) → Selection → Selection
  | [], s => s
  | x :: rest, s =>
    if gpuCapable x.2 then
      { gpuDeviceSelected := true, anyDeviceSelected := true,
        selectedPlatform := x.1.id, selectedDevice := x.2.id }
    else scan rest (recordCpu s x)

/-- The state on line 42-45 before the loop. -/
def Selection.initial : Selection :=
  { gpuDeviceSelected := false, anyDeviceSelected := false,
    selectedPlatform := 0, selectedDevice := 0 }

/-- The exception of line 74. -/
def noDeviceFound : Failure := Failure.runtime_error "No device found"

/-- The exception of line 173. -/
def resultsDiffer : Failure := Failure.runtime_error "CPU and GPU results differ!"

/-- A sample enumeration: platform `10` lists one CPU device, platform `20`
lists a CPU device, then two GPU devices; every query succeeds. -/
def sampleMixed : List PlatformInfo :=
  [ { id := 10, countStatus := 0, idsStatus := 0,
      devices := [{ id := 1, infoStatus := 0, deviceType := 2 }] },
    { id := 20, countStatus := 0, idsStatus := 0,
      devices := [{ id := 2, infoStatus := 0, deviceType := 2 },
                  { id := 3, infoStatus := 0, deviceType := 4 },
                  { id := 4, infoStatus := 0, deviceType := 4 }] } ]

/-- A sample enumeration without GPU: platform `10` lists two CPU devices,
platform `20` lists an accelerator, a CPU device and another accelerator. -/
def sampleCpuOnly : List PlatformInfo :=
  [ { id := 10, countStatus := 0, idsStatus := 0,
      devices := [{ id := 1, infoStatus := 0, deviceType := 2 },
                  { id := 2, infoStatus := 0, deviceType := 2 }] },
    { id := 20, countStatus := 0, idsStatus := 0,
      devices := [{ id := 3, infoStatus := 0, deviceType := 8 },
                  { id := 4, infoStatus := 0, deviceType := 2 },
                  { id := 5, infoStatus := 0, deviceType := 8 }] } ]

/-- A sample enumeration with nothing selectable: an empty platform and a
platform with a single accelerator-class device. -/
def sampleAcceleratorOnly : List PlatformInfo :=
  [ { id := 10, countStatus := 0, idsStatus := 0, devices := [] },
    { id := 20, countStatus := 0, idsStatus := 0,
      devices := [{ id := 3, infoStatus := 0, deviceType := CL_DEVICE_TYPE_ACCELERATOR }] } ]

/-! ## Dispatch grid (lines 151-152) -/

/-- Line 152, `(n + workGroupSize - 1) / workGroupSize * workGroupSize`, in the
arithmetic of a `size_t` that is `sizeBits` wide: `n` is converted to `size_t`
first and every operation wraps modulo `2 ^ sizeBits`. -/
def globalWorkSize (sizeBits n workGroupSize : Nat) : Nat :=
  let m := 2 ^ sizeBits
  let sum := (n % m + workGroupSize) % m
  let minusOne := (sum + (m - 1)) % m
  (minusOne / workGroupSize * workGroupSize) % m

/-! ## Result check (lines 170-175) -/

/-- The loop of lines 171-175 with `remaining` iterations to go from index `i`.
`as` and `bs` hold the `bool`s the host wrote on lines 95-96; `cs` holds the
bytes the device wrote into the buffer read back on line 165, whatever they
are.  All three operands are promoted to `int` for `^` and `!=`, so the byte of
`cs` is compared as a number with the `0` or `1` of `as[i] ^ bs[i]`. -/
def checkLoop (as bs : Nat → Bool) (cs : Nat → Nat) : Nat → Nat → M Unit
  | 0, _ => pure ()
  | remaining + 1, i => do
    emit (.examine i)
    if cs i ≠ ((as i).toNat ^^^ (bs i).toNat) then
      throw (Failure.runtime_error "CPU and GPU results differ!")
    checkLoop as bs cs remaining (i + 1)

/-- Lines 170-175: `for (unsigned int i = 0; i < n; ++i)` over host arrays
given as index-to-element maps. -/
def checkResults (n : Nat) (as bs : Nat → Bool) (cs : Nat → Nat) : M Unit :=
  checkLoop as bs cs n 0

/-- The indices `i, i + 1, ..., i + count - 1` as examined one after another. -/
def examinedFrom : Nat → Nat → List Event
  | _, 0 => []
  | i, count + 1 => .examine i :: examinedFrom (i + 1) count

/-! ## Everything the environment decides -/

/-- All answers `main` gets from outside: the driver's statuses and data, the
random inputs, the kernel file, and two facts about the compilation (the
expansion of `__FILE__`, the width of `size_t`). -/
structure Driver where
  file : String
  sizeBits : Nat
  ocl_init : Bool
  platformCountStatus : Int
  platformIdsStatus : Int
  platforms : List PlatformInfo
  createContextStatus : Int
  createCommandQueueStatus : Int
  as : Nat → Bool
  bs : Nat → Bool
  csMalloc : Nat → Nat
  createBufferAStatus : Int
  createBufferBStatus : Int
  createBufferCStatus : Int
  kernelSources : String
  createProgramStatus : Int
  buildStatus : Int
  logSizeStatus : Int
  log_size : Nat
  logStatus : Int
  log : List Char
  createKernelStatus : Int
  setKernelArgStatus : Nat → Int
  enqueueKernelStatus : Nat → Int
  waitKernelStatus : Nat → Int
  enqueueReadStatus : Nat → Int
  readBuffer : Nat → Nat → Nat
  waitReadStatus : Nat → Int
  releaseProgramStatus : Int
  releaseKernelStatus : Int
  releaseAStatus : Int
  releaseBStatus : Int
  releaseCStatus : Int
  releaseCommandQueueStatus : Int
  releaseContextStatus : Int

/-- Line 88, `constexpr unsigned int n = 100 * 1000 * 1000`. -/
def n : Nat := 100 * 1000 * 1000

/-! ## Program builder (lines 119-139) -/

/-- What `std::cout << log.data()` writes: the characters before the first NUL. -/
def cString (buffer : List Char) : String :=
  String.mk (buffer.takeWhile (fun c => c ≠ Char.ofNat 0))

/-- Lines 119-139: create the program (its status lands in `errcode` and is
overwritten on line 138 without having been read), build, fetch the log, print
it when `log_size > 1`, only then check the build status, then create the
kernel `"xor"`. -/
def buildProgram (d : Driver) (kernelSources : String) : M Unit := do
  emit (.clCreateProgramWithSource kernelSources)
  let mut errcode := d.createProgramStatus
  emit .clBuildProgram
  let buildStatus := d.buildStatus
  emit .clGetProgramBuildInfo
  reportError d.logSizeStatus d.file 128
  emit .clGetProgramBuildInfo
  reportError d.logStatus d.file 130
  if d.log_size > 1 then
    emit (.print "Log:")
    emit (.print (cString d.log))
  reportError buildStatus d.file 135
  emit (.clCreateKernel "xor")
  errcode := d.createKernelStatus
  reportError errcode d.file 139

/-! ## Dispatch and readback loops (lines 154-167) -/

/-- Lines 154-158 with `remaining` iterations to go from iteration `i`.  The
call of lines 155-156 spans two lines; `__LINE__` is taken to be the line it
starts on. -/
def dispatchLoop (d : Driver) (global workGroup : Nat) : Nat → Nat → M Unit
  | 0, _ => pure ()
  | remaining + 1, i => do
    emit (.clEnqueueNDRangeKernel global workGroup)
    reportError (d.enqueueKernelStatus i) d.file 155
    emit .clWaitForEvents
    reportError (d.waitKernelStatus i) d.file 157
    dispatchLoop d global workGroup remaining (i + 1)

/-- Lines 164-167 with `remaining` iterations to go from iteration `i`; the
third argument is the content of the host array `cs`, one byte per element,
overwritten by each read. -/
def readbackLoop (d : Driver) (bufferSize : Nat) : Nat → Nat → (Nat → Nat) → M (Nat → Nat)
  | 0, _, cs => pure cs
  | remaining + 1, i, _ => do
    emit (.clEnqueueReadBuffer bufferSize)
    reportError (d.enqueueReadStatus i) d.file 165
    emit .clWaitForEvents
    reportError (d.waitReadStatus i) d.file 166
    readbackLoop d bufferSize remaining (i + 1) (d.readBuffer i)

/-! ## Teardown (lines 177-184) -/

/-- Lines 178-184. -/
def freeResources (d : Driver) : M Unit := do
  emit .clReleaseProgram
  reportError d.releaseProgramStatus d.file 178
  emit .clReleaseKernel
  reportError d.releaseKernelStatus d.file 179
  emit (.clReleaseMemObject .a_gpu)
  reportError d.releaseAStatus d.file 180
  emit (.clReleaseMemObject .b_gpu)
  reportError d.releaseBStatus d.file 181
  emit (.clReleaseMemObject .c_gpu)
  reportError d.releaseCStatus d.file 182
  emit .clReleaseCommandQueue
  reportError d.releaseCommandQueueStatus d.file 183
  emit .clReleaseContext
  reportError d.releaseContextStatus d.file 184

/-! ## `main` (lines 32-187) -/

/-- Lines 76-106: context, command queue and the three buffers, each status
checked right after the call. -/
def createContextQueueBuffers (d : Driver) (selectedPlatform selectedDevice : Nat) : M Unit := do
  emit (.clCreateContext selectedPlatform selectedDevice)
  let mut errcode := d.createContextStatus
  reportError errcode d.file 81
  emit (.clCreateCommandQueue selectedDevice)
  errcode := d.createCommandQueueStatus
  reportError errcode d.file 85
  emit (.clCreateBuffer .a_gpu)
  errcode := d.createBufferAStatus
  reportError errcode d.file 102
  emit (.clCreateBuffer .b_gpu)
  errcode := d.createBufferBStatus
  reportError errcode d.file 104
  emit (.clCreateBuffer .c_gpu)
  errcode := d.createBufferCStatus
  reportError errcode d.file 106

/-- Lines 141-147: the four argument bindings; the statuses the calls return
are dropped. -/
def setKernelArgs : M Unit := do
  emit (.clSetKernelArg 0)
  emit (.clSetKernelArg 1)
  emit (.clSetKernelArg 2)
  emit (.clSetKernelArg 3)

/-- The whole of `main`; the value is the exit status it returns. -/
def main (d : Driver) : M Int := do
  if !d.ocl_init then
    throw (Failure.runtime_error "Can't init OpenCL driver!")
  emit .clGetPlatformIDs
  reportError d.platformCountStatus d.file 38
  emit .clGetPlatformIDs
  reportError d.platformIdsStatus d.file 40
  let (selectedPlatform, selectedDevice) ← selectDevice d.file d.platforms
  createContextQueueBuffers d selectedPlatform selectedDevice
  if d.kernelSources.length = 0 then
    throw (Failure.runtime_error
      "Empty source file! May be you forgot to configure working directory properly?")
  buildProgram d d.kernelSources
  setKernelArgs
  let workGroupSize := 128
  dispatchLoop d (globalWorkSize d.sizeBits n workGroupSize) workGroupSize 20 0
  let cs ← readbackLoop d n 20 0 d.csMalloc
  checkResults n d.as d.bs cs
  freeResources d
  pure 0

/-! ## Vocabulary for statements about whole runs -/

/-- Whenever `m` returns normally, it has acquired exactly `acq` and released
exactly `rel`, in these orders, on top of what the log already held. -/
def Tracks {α : Type} (m : M α) (acq rel : List Resource) : Prop :=
  ∀ log a log1, m log = (.ok a, log1) →
    acquired log1 = acquired log ++ acq ∧ released log1 = released log ++ rel

/-- Everything `main` checks goes well: the driver initialises, every status
that is passed to `reportError` is `CL_SUCCESS`, a device is selectable, the
kernel file is not empty and the last readback equals the XOR of the inputs,
byte for byte.  The statuses of `clCreateProgramWithSource` and of the four
`clSetKernelArg` calls do not occur: `main` never reads them. -/
structure ChecksPass (d : Driver) : Prop where
  init : d.ocl_init = true
  platformCount : d.platformCountStatus = CL_SUCCESS
  platformIds : d.platformIdsStatus = CL_SUCCESS
  queries : queriesSucceed d.platforms = true
  device : ∃ x ∈ enumerationOrder d.platforms, gpuCapable x.2 = true ∨ cpuCapable x.2 = true
  createContext : d.createContextStatus = CL_SUCCESS
  createCommandQueue : d.createCommandQueueStatus = CL_SUCCESS
  createBufferA : d.createBufferAStatus = CL_SUCCESS
  createBufferB : d.createBufferBStatus = CL_SUCCESS
  createBufferC : d.createBufferCStatus = CL_SUCCESS
  source : d.kernelSources.length ≠ 0
  logSize : d.logSizeStatus = CL_SUCCESS
  log : d.logStatus = CL_SUCCESS
  build : d.buildStatus = CL_SUCCESS
  createKernel : d.createKernelStatus = CL_SUCCESS
  enqueueKernel : ∀ i, d.enqueueKernelStatus i = CL_SUCCESS
  waitKernel : ∀ i, d.waitKernelStatus i = CL_SUCCESS
  enqueueRead : ∀ i, d.enqueueReadStatus i = CL_SUCCESS
  waitRead : ∀ i, d.waitReadStatus i = CL_SUCCESS
  verified : ∀ i, i < n → d.readBuffer 19 i = (xor (d.as i) (d.bs i)).toNat
  releaseProgram : d.releaseProgramStatus = CL_SUCCESS
  releaseKernel : d.releaseKernelStatus = CL_SUCCESS
  releaseA : d.releaseAStatus = CL_SUCCESS
  releaseB : d.releaseBStatus = CL_SUCCESS
  releaseC : d.releaseCStatus = CL_SUCCESS
  releaseCommandQueue : d.releaseCommandQueueStatus = CL_SUCCESS
  releaseContext : d.releaseContextStatus = CL_SUCCESS

/-- Every accelerator-API call returns `CL_SUCCESS` and verification passes:
what `main` checks, and also the two kinds of status it drops, that of
`clCreateProgramWithSource` and those of the four `clSetKernelArg` calls. -/
structure AllCallsSucceed (d : Driver) : Prop where
  checks : ChecksPass d
  createProgram : d.createProgramStatus = CL_SUCCESS
  setKernelArg : ∀ i, d.setKernelArgStatus i = CL_SUCCESS

/-- A run in which every call succeeds: the platforms of `sampleMixed`, a
kernel that computes the XOR, an empty build log. -/
def sampleDriver : Driver where
  file := "src/main.cpp"
  sizeBits := 64
  ocl_init := true
  platformCountStatus := 0
  platformIdsStatus := 0
  platforms := sampleMixed
  createContextStatus := 0
  createCommandQueueStatus := 0
  as := fun i => i % 2 == 0
  bs := fun i => i % 3 == 0
  csMalloc := fun _ => 0
  createBufferAStatus := 0
  createBufferBStatus := 0
  createBufferCStatus := 0
  kernelSources := "__kernel void xor(__global char *a, __global char *b, __global char *c, uint n);"
  createProgramStatus := 0
  buildStatus := 0
  logSizeStatus := 0
  log_size := 1
  logStatus := 0
  log := [Char.ofNat 0]
  createKernelStatus := 0
  setKernelArgStatus := fun _ => 0
  enqueueKernelStatus := fun _ => 0
  waitKernelStatus := fun _ => 0
  enqueueReadStatus := fun _ => 0
  readBuffer := fun _ i => (xor (i % 2 == 0) (i % 3 == 0)).toNat
  waitReadStatus := fun _ => 0
  releaseProgramStatus := 0
  releaseKernelStatus := 0
  releaseAStatus := 0
  releaseBStatus := 0
  releaseCStatus := 0
  releaseCommandQueueStatus := 0
  releaseContextStatus := 0

/-- The run of `sampleDriver`, except that `clCreateProgramWithSource` reports
`CL_OUT_OF_HOST_MEMORY` (`-6`). -/
def failingDriver : Driver := { sampleDriver with createProgramStatus := -6 }

/-- A build that fails with `CL_BUILD_PROGRAM_FAILURE` (`-11`) and leaves a
five-byte log. -/
def brokenBuildDriver : Driver :=
  { sampleDriver with buildStatus := -11, log_size := 5, log := ['o', 'o', 'p', 's', Char.ofNat 0] }

/-- A build that succeeds and leaves a five-byte log, a warning. -/
def warningDriver : Driver :=
  { sampleDriver with log_size := 5, log := ['w', 'a', 'r', 'n', Char.ofNat 0] }

/-! # Theorems -/

section MonadLemmas

variable {α β : Type}

theorem bind_apply (m : M α) (f : α → M β) (log : List Event) :
    (m >>= f) log =
      match m log with
      | (.ok a, log1) => f a log1
      | (.error e, log1) => (.error e, log1) := rfl

theorem pure_apply (a : α) (log : List Event) : (pure a : M α) log = (.ok a, log) := rfl

theorem throw_apply (e : Failure) (log : List Event) :
    (throw e : M α) log = (.error e, log) := rfl

theorem emit_apply (ev : Event) (log : List Event) : emit ev log = (.ok (), log ++ [ev]) := rfl

theorem reportError_apply (err : Int) (filename : String) (line : Int) (log : List Event) :
    reportError err filename line log =
      (if err = CL_SUCCESS then .ok ()
        else .error (Failure.runtime_error (errorMessage err filename line)), log) := by
  unfold reportError
  by_cases h : err = CL_SUCCESS
  · subst h; simp [pure_apply]
  · have h2 : ¬ CL_SUCCESS = err := fun e => h e.symm
    simp [h, h2, throw_apply]

theorem reportError_success (filename : String) (line : Int) (log : List Event) :
    reportError CL_SUCCESS filename line log = (.ok (), log) := by
  simp [reportError_apply]

end MonadLemmas

/-! ## Error signalling -/

/-- C7: `reportError err filename line` returns normally exactly when `err` is
`CL_SUCCESS` (which is `0`); otherwise it throws the message
`OpenCL error code <err> encountered at <filename>:<line>` with both numbers in
decimal; in either case the log of effects is left as it was. -/
theorem reportError_spec (err : Int) (filename : String) (line : Int) (log : List Event) :
    CL_SUCCESS = 0 ∧
    ((reportError err filename line log).1 = .ok () ↔ err = CL_SUCCESS) ∧
    (reportError err filename line log).1 =
      (if err = CL_SUCCESS then .ok ()
        else .error (Failure.runtime_error
          ("OpenCL error code " ++ toString err ++ " encountered at " ++ filename ++ ":" ++
            toString line))) ∧
    (reportError err filename line log).2 = log ∧
    (reportError (-30) "src/main.cpp" 121 log).1 =
      .error (Failure.runtime_error "OpenCL error code -30 encountered at src/main.cpp:121") := by
  refine ⟨rfl, ?_, ?_, ?_, ?_⟩
  · rw [reportError_apply]
    by_cases h : err = CL_SUCCESS <;> simp [h]
  · rw [reportError_apply]; rfl
  · rw [reportError_apply]
  · rw [reportError_apply]
    rfl

/-! ## Result check -/

theorem promoted_xor (a b : Bool) : (a.toNat ^^^ b.toNat) = (xor a b).toNat := by
  cases a <;> cases b <;> rfl

theorem checkLoop_succ (as bs : Nat → Bool) (cs : Nat → Nat) (remaining i : Nat)
    (log : List Event) :
    checkLoop as bs cs (remaining + 1) i log =
      if cs i ≠ (xor (as i) (bs i)).toNat then (.error resultsDiffer, log ++ [.examine i])
      else checkLoop as bs cs remaining (i + 1) (log ++ [.examine i]) := by
  rw [checkLoop, promoted_xor]
  by_cases h : cs i ≠ (xor (as i) (bs i)).toNat
  · rw [if_pos h, if_pos h]
    rfl
  · rw [if_neg h, if_neg h]
    rfl

theorem acquired_examinedFrom (i count : Nat) : acquired (examinedFrom i count) = [] := by
  induction count generalizing i with
  | zero => rfl
  | succ k ih =>
    rw [examinedFrom]
    exact ih (i + 1)

theorem released_examinedFrom (i count : Nat) : released (examinedFrom i count) = [] := by
  induction count generalizing i with
  | zero => rfl
  | succ k ih =>
    rw [examinedFrom]
    exact ih (i + 1)

theorem checkLoop_pass (as bs : Nat → Bool) (cs : Nat → Nat) (remaining i : Nat)
    (log : List Event)
    (h : ∀ j, j < remaining → cs (i + j) = (xor (as (i + j)) (bs (i + j))).toNat) :
    checkLoop as bs cs remaining i log = (.ok (), log ++ examinedFrom i remaining) := by
  induction remaining generalizing i log with
  | zero => simp [checkLoop, examinedFrom, pure_apply]
  | succ k ih =>
    have h0 : cs i = (xor (as i) (bs i)).toNat := by simpa using h 0 (by omega)
    rw [checkLoop_succ, if_neg (not_not.2 h0), ih, examinedFrom, List.append_assoc]
    · rfl
    · intro j hj
      have e : i + 1 + j = i + (j + 1) := by omega
      rw [e]
      exact h (j + 1) (by omega)

theorem checkLoop_fail_first (as bs : Nat → Bool) (cs : Nat → Nat) (remaining i k : Nat)
    (log : List Event) (hk : k < remaining)
    (hmis : cs (i + k) ≠ (xor (as (i + k)) (bs (i + k))).toNat)
    (hfirst : ∀ j, j < k → cs (i + j) = (xor (as (i + j)) (bs (i + j))).toNat) :
    checkLoop as bs cs remaining i log =
      (.error resultsDiffer, log ++ examinedFrom i (k + 1)) := by
  induction k generalizing remaining i log with
  | zero =>
    obtain ⟨r, rfl⟩ : ∃ r, remaining = r + 1 := ⟨remaining - 1, by omega⟩
    simp only [Nat.add_zero] at hmis
    rw [checkLoop_succ, if_pos hmis]
    rfl
  | succ k ih =>
    obtain ⟨r, rfl⟩ : ∃ r, remaining = r + 1 := ⟨remaining - 1, by omega⟩
    have h0 : cs i = (xor (as i) (bs i)).toNat := by simpa using hfirst 0 (by omega)
    rw [checkLoop_succ, if_neg (not_not.2 h0), ih r (i + 1) _ (by omega)]
    · rw [examinedFrom, List.append_assoc]
      rfl
    · have e : i + 1 + k = i + (k + 1) := by omega
      rw [e]
      exact hmis
    · intro j hj
      have e : i + 1 + j = i + (j + 1) := by omega
      rw [e]
      exact hfirst (j + 1) (by omega)

theorem checkResults_cases (n : Nat) (as bs : Nat → Bool) (cs : Nat → Nat) (log : List Event) :
    ((∀ i, i < n → cs i = (xor (as i) (bs i)).toNat) ∧
      checkResults n as bs cs log = (.ok (), log ++ examinedFrom 0 n)) ∨
    ∃ i, i < n ∧ cs i ≠ (xor (as i) (bs i)).toNat ∧
      (∀ j, j < i → cs j = (xor (as j) (bs j)).toNat) ∧
      checkResults n as bs cs log = (.error resultsDiffer, log ++ examinedFrom 0 (i + 1)) := by
  by_cases hex : ∃ i, i < n ∧ cs i ≠ (xor (as i) (bs i)).toNat
  · right
    have hfind := Nat.find_spec hex
    refine ⟨Nat.find hex, hfind.1, hfind.2, ?_, ?_⟩
    · intro j hj
      by_contra hne
      exact Nat.find_min hex hj ⟨Nat.lt_trans hj hfind.1, hne⟩
    · unfold checkResults
      apply checkLoop_fail_first as bs cs n 0 (Nat.find hex) log hfind.1
      · rw [Nat.zero_add]; exact hfind.2
      · intro j hj
        rw [Nat.zero_add]
        by_contra hne
        exact Nat.find_min hex hj ⟨Nat.lt_trans hj hfind.1, hne⟩
  · left
    have hall : ∀ i, i < n → cs i = (xor (as i) (bs i)).toNat := by
      intro i hi
      by_contra hne
      exact hex ⟨i, hi, hne⟩
    refine ⟨hall, ?_⟩
    unfold checkResults
    apply checkLoop_pass
    intro j hj
    rw [Nat.zero_add]
    exact hall j hj

theorem globalWorkSize_eq (sizeBits n : Nat) (hbits : 33 ≤ sizeBits) (hn : n < 2 ^ 32) :
    globalWorkSize sizeBits n 128 = (n + 127) / 128 * 128 := by
  have hm : 2 ^ 33 ≤ 2 ^ sizeBits := Nat.pow_le_pow_right (by decide) hbits
  unfold globalWorkSize
  generalize 2 ^ sizeBits = m at hm
  have h33 : (2 : Nat) ^ 33 = 8589934592 := by norm_num
  have h32 : (2 : Nat) ^ 32 = 4294967296 := by norm_num
  rw [h33] at hm
  rw [h32] at hn
  simp only
  have e1 : n % m = n := Nat.mod_eq_of_lt (by omega)
  have e2 : (n + 128) % m = n + 128 := Nat.mod_eq_of_lt (by omega)
  have e3 : (n + 128 + (m - 1)) % m = n + 127 := by
    have e : n + 128 + (m - 1) = n + 127 + m := by omega
    rw [e, Nat.add_mod_right]
    exact Nat.mod_eq_of_lt (by omega)
  rw [e1, e2, e3]
  exact Nat.mod_eq_of_lt (by omega)

/-- C4: for every problem size `n` below `2 ^ 32` and local size `128`, the
global work size of line 152, computed in a `size_t` of 33 bits or more (so in
particular 64), is the smallest multiple of `128` that is `>= n`: it is
divisible by `128`, at least `n`, less than `n + 128`, below every other such
multiple, and nothing wraps around (it equals the unbounded value of the
expression); `n = 100000000` gives `100000000`, `n = 1` gives `128` and
`n = 129` gives `256`. -/
theorem globalWorkSize_spec (sizeBits n : Nat) (hbits : 33 ≤ sizeBits) (hn : n < 2 ^ 32) :
    128 ∣ globalWorkSize sizeBits n 128 ∧
    n ≤ globalWorkSize sizeBits n 128 ∧
    globalWorkSize sizeBits n 128 < n + 128 ∧
    (∀ k, 128 ∣ k → n ≤ k → globalWorkSize sizeBits n 128 ≤ k) ∧
    globalWorkSize sizeBits n 128 = (n + 128 - 1) / 128 * 128 ∧
    globalWorkSize sizeBits 100000000 128 = 100000000 ∧
    globalWorkSize sizeBits 1 128 = 128 ∧
    globalWorkSize sizeBits 129 128 = 256 := by
  rw [globalWorkSize_eq sizeBits n hbits hn,
    globalWorkSize_eq sizeBits 100000000 hbits (by norm_num),
    globalWorkSize_eq sizeBits 1 hbits (by norm_num),
    globalWorkSize_eq sizeBits 129 hbits (by norm_num)]
  refine ⟨Dvd.intro_left _ rfl, by omega, by omega, ?_, by omega, by norm_num, by norm_num,
    by norm_num⟩
  rintro k ⟨c, rfl⟩ hk
  omega

/-- Witness of `globalWorkSize_spec` for a 64-bit `size_t` and the problem size
of line 88. -/
theorem globalWorkSize_spec_witness :
    (33 ≤ 64 ∧ 100000000 < 2 ^ 32) ∧
    128 ∣ globalWorkSize 64 100000000 128 ∧
    100000000 ≤ globalWorkSize 64 100000000 128 ∧
    globalWorkSize 64 100000000 128 < 100000000 + 128 ∧
    (∀ k, 128 ∣ k → 100000000 ≤ k → globalWorkSize 64 100000000 128 ≤ k) ∧
    globalWorkSize 64 100000000 128 = (100000000 + 128 - 1) / 128 * 128 ∧
    globalWorkSize 64 100000000 128 = 100000000 ∧
    globalWorkSize 64 1 128 = 128 ∧
    globalWorkSize 64 129 128 = 256 :=
  ⟨⟨by decide, by norm_num⟩, globalWorkSize_spec 64 100000000 (by decide) (by norm_num)⟩

/-! ## Device selection -/

theorem deviceLoop_cons (file : String) (platform : PlatformInfo) (device : DeviceInfo)
    (rest : List DeviceInfo) (s : Selection) (log : List Event)
    (hq : device.infoStatus = CL_SUCCESS) :
    deviceLoop file platform.id (device :: rest) s log =
      if gpuCapable device then
        (.ok { gpuDeviceSelected := true, anyDeviceSelected := true,
               selectedPlatform := platform.id, selectedDevice := device.id },
          log ++ [.clGetDeviceInfo device.id])
      else
        deviceLoop file platform.id rest (recordCpu s (platform, device))
          (log ++ [.clGetDeviceInfo device.id]) := by
  rw [deviceLoop]
  simp only [bind_apply, emit_apply, hq, reportError_success]
  by_cases hg : device.deviceType &&& CL_DEVICE_TYPE_GPU ≠ 0
  · have hg2 : gpuCapable device = true := by simp [gpuCapable, hg]
    rw [if_pos hg, if_pos hg2]
    rfl
  · have hg2 : ¬ gpuCapable device = true := by simp [gpuCapable, hg]
    rw [if_neg hg, if_neg hg2]
    by_cases hc : device.deviceType &&& CL_DEVICE_TYPE_CPU ≠ 0
    · have hc2 : cpuCapable device = true := by simp [cpuCapable, hc]
      rw [if_pos hc]
      simp only [recordCpu, hc2, if_true]
    · have hc2 : cpuCapable device = false := by simpa [cpuCapable] using hc
      rw [if_neg hc]
      simp [recordCpu, hc2]

theorem deviceLoop_scan (file : String) (platform : PlatformInfo) (devices : List DeviceInfo)
    (s : Selection) (log : List Event)
    (hq : ∀ device ∈ devices, device.infoStatus = CL_SUCCESS) :
    ∃ log1, deviceLoop file platform.id devices s log =
      (.ok (scan (devices.map (fun device => (platform, device))) s), log1) := by
  induction devices generalizing s log with
  | nil => exact ⟨log, rfl⟩
  | cons device rest ih =>
    rw [deviceLoop_cons file platform device rest s log (hq device (List.mem_cons_self _ _))]
    simp only [List.map_cons, scan]
    by_cases hg : gpuCapable device = true
    · rw [if_pos hg, if_pos hg]
      exact ⟨_, rfl⟩
    · rw [if_neg hg, if_neg hg]
      exact ih _ _ (fun d hd => hq d (List.mem_cons_of_mem _ hd))

theorem recordCpu_gpuDeviceSelected (s : Selection) (x : PlatformInfo × DeviceInfo) :
    (recordCpu s x).gpuDeviceSelected = s.gpuDeviceSelected := by
  unfold recordCpu
  split <;> rfl

theorem scan_append (l1 l2 : List (PlatformInfo × DeviceInfo)) (s : Selection)
    (hs : s.gpuDeviceSelected = false) :
    scan (l1 ++ l2) s =
      if (scan l1 s).gpuDeviceSelected then scan l1 s else scan l2 (scan l1 s) := by
  induction l1 generalizing s with
  | nil => simp [scan, hs]
  | cons x rest ih =>
    simp only [List.cons_append, scan]
    by_cases hg : gpuCapable x.2 = true
    · simp [hg]
    · rw [if_neg hg, if_neg hg]
      exact ih _ (by rw [recordCpu_gpuDeviceSelected]; exact hs)

theorem platformLoop_scan (file : String) (platforms : List PlatformInfo) (s : Selection)
    (log : List Event) (hq : queriesSucceed platforms = true)
    (hs : s.gpuDeviceSelected = false) :
    ∃ log1, platformLoop file platforms s log =
      (.ok (scan (enumerationOrder platforms) s), log1) := by
  induction platforms generalizing s log with
  | nil => exact ⟨log, rfl⟩
  | cons platform rest ih =>
    simp only [queriesSucceed, List.all_cons, Bool.and_eq_true, decide_eq_true_eq,
      List.all_eq_true] at hq
    obtain ⟨⟨⟨hc, hi⟩, hd⟩, hrest⟩ := hq
    have hrest2 : queriesSucceed rest = true := by
      simp only [queriesSucceed, List.all_eq_true, Bool.and_eq_true, decide_eq_true_eq]
      exact hrest
    rw [platformLoop]
    simp only [bind_apply, emit_apply, hc, hi, reportError_success]
    obtain ⟨log1, h1⟩ := deviceLoop_scan file platform platform.devices s
      (log ++ [.clGetDeviceIDs platform.id] ++ [.clGetDeviceIDs platform.id]) hd
    rw [h1]
    simp only [enumerationOrder]
    rw [scan_append _ _ s hs]
    by_cases hg : (scan (platform.devices.map (fun device => (platform, device))) s).gpuDeviceSelected
        = true
    · simp only [hg, if_true]
      exact ⟨log1, rfl⟩
    · simp only [hg]
      have hg2 : (scan (platform.devices.map (fun device => (platform, device))) s).gpuDeviceSelected
          = false := by simpa using hg
      exact ih _ log1 hrest2 hg2

theorem selectDevice_scan (file : String) (platforms : List PlatformInfo) (log : List Event)
    (hq : queriesSucceed platforms = true) :
    ∃ log1, selectDevice file platforms log =
      (if (scan (enumerationOrder platforms) Selection.initial).anyDeviceSelected then
          .ok ((scan (enumerationOrder platforms) Selection.initial).selectedPlatform,
               (scan (enumerationOrder platforms) Selection.initial).selectedDevice)
        else .error noDeviceFound, log1) := by
  obtain ⟨log1, h1⟩ := platformLoop_scan file platforms Selection.initial log hq rfl
  refine ⟨log1, ?_⟩
  unfold selectDevice
  rw [bind_apply]
  simp only [Selection.initial] at h1 ⊢
  rw [h1]
  simp only
  generalize scan (enumerationOrder platforms) _ = r
  rcases r with ⟨g, a, sp, sd⟩
  cases a <;> rfl

theorem scan_first_gpu (before after : List (PlatformInfo × DeviceInfo))
    (x : PlatformInfo × DeviceInfo) (s : Selection)
    (hbefore : ∀ y ∈ before, gpuCapable y.2 = false) (hx : gpuCapable x.2 = true) :
    scan (before ++ x :: after) s =
      { gpuDeviceSelected := true, anyDeviceSelected := true,
        selectedPlatform := x.1.id, selectedDevice := x.2.id } := by
  induction before generalizing s with
  | nil => simp [scan, hx]
  | cons y rest ih =>
    have hy : gpuCapable y.2 = false := hbefore y (List.mem_cons_self _ _)
    simp only [List.cons_append, scan, hy]
    exact ih _ (fun z hz => hbefore z (List.mem_cons_of_mem _ hz))

theorem scan_no_gpu (l : List (PlatformInfo × DeviceInfo)) (s : Selection)
    (hl : ∀ y ∈ l, gpuCapable y.2 = false) : scan l s = l.foldl recordCpu s := by
  induction l generalizing s with
  | nil => rfl
  | cons y rest ih =>
    have hy : gpuCapable y.2 = false := hl y (List.mem_cons_self _ _)
    simp only [scan, hy, List.foldl_cons]
    exact ih _ (fun z hz => hl z (List.mem_cons_of_mem _ hz))

theorem foldl_recordCpu_none (l : List (PlatformInfo × DeviceInfo)) (s : Selection)
    (hl : ∀ y ∈ l, cpuCapable y.2 = false) : l.foldl recordCpu s = s := by
  induction l generalizing s with
  | nil => rfl
  | cons y rest ih =>
    have hy : cpuCapable y.2 = false := hl y (List.mem_cons_self _ _)
    simp only [List.foldl_cons, recordCpu, hy]
    exact ih _ (fun z hz => hl z (List.mem_cons_of_mem _ hz))

theorem foldl_recordCpu_gpu (l : List (PlatformInfo × DeviceInfo)) (s : Selection) :
    (l.foldl recordCpu s).gpuDeviceSelected = s.gpuDeviceSelected := by
  induction l generalizing s with
  | nil => rfl
  | cons y rest ih => rw [List.foldl_cons, ih, recordCpu_gpuDeviceSelected]

theorem foldl_recordCpu_last (before after : List (PlatformInfo × DeviceInfo))
    (x : PlatformInfo × DeviceInfo) (s : Selection)
    (hx : cpuCapable x.2 = true) (hafter : ∀ y ∈ after, cpuCapable y.2 = false) :
    (before ++ x :: after).foldl recordCpu s =
      { gpuDeviceSelected := s.gpuDeviceSelected, anyDeviceSelected := true,
        selectedPlatform := x.1.id, selectedDevice := x.2.id } := by
  rw [List.foldl_append, List.foldl_cons, foldl_recordCpu_none after _ hafter]
  simp only [recordCpu, hx, if_true]
  rw [foldl_recordCpu_gpu]

theorem scan_any (l : List (PlatformInfo × DeviceInfo)) (s : Selection) :
    (scan l s).anyDeviceSelected =
      (s.anyDeviceSelected || l.any (fun x => gpuCapable x.2 || cpuCapable x.2)) := by
  induction l generalizing s with
  | nil => simp [scan]
  | cons y rest ih =>
    simp only [scan, List.any_cons]
    cases hg : gpuCapable y.2
    · rw [if_neg (by simp), ih]
      unfold recordCpu
      cases hc : cpuCapable y.2 <;> simp
    · simp

theorem mem_enumerationOrder (platforms : List PlatformInfo) (x : PlatformInfo × DeviceInfo) :
    x ∈ enumerationOrder platforms ↔ x.1 ∈ platforms ∧ x.2 ∈ x.1.devices := by
  induction platforms with
  | nil => simp [enumerationOrder]
  | cons platform rest ih =>
    simp only [enumerationOrder, List.mem_append, List.mem_map, List.mem_cons, ih]
    constructor
    · rintro (⟨d, hd, rfl⟩ | ⟨h1, h2⟩)
      · exact ⟨Or.inl rfl, hd⟩
      · exact ⟨Or.inr h1, h2⟩
    · rintro ⟨h1 | h1, h2⟩
      · left
        refine ⟨x.2, ?_, ?_⟩
        · rw [← h1]; exact h2
        · rw [← h1]
      · exact Or.inr ⟨h1, h2⟩

theorem exists_first_split {α : Type} (P : α → Bool) (l : List α) (h : ∃ x ∈ l, P x = true) :
    ∃ before x after, l = before ++ x :: after ∧ (∀ y ∈ before, P y = false) ∧ P x = true := by
  induction l with
  | nil => obtain ⟨x, hx, _⟩ := h; cases hx
  | cons a rest ih =>
    cases ha : P a
    · obtain ⟨x, hx, hpx⟩ := h
      have hmem : x ∈ rest := by
        rcases List.mem_cons.1 hx with e | m
        · subst e; rw [ha] at hpx; cases hpx
        · exact m
      obtain ⟨before, z, after, e, hb, hz⟩ := ih ⟨x, hmem, hpx⟩
      refine ⟨a :: before, z, after, by rw [e]; rfl, ?_, hz⟩
      intro y hy
      rcases List.mem_cons.1 hy with e2 | m
      · rw [e2]; exact ha
      · exact hb y m
    · exact ⟨[], a, rest, rfl, (fun y hy => absurd hy (List.not_mem_nil y)), ha⟩

theorem exists_last_split {α : Type} (P : α → Bool) (l : List α) (h : ∃ x ∈ l, P x = true) :
    ∃ before x after, l = before ++ x :: after ∧ P x = true ∧ (∀ y ∈ after, P y = false) := by
  induction l with
  | nil => obtain ⟨x, hx, _⟩ := h; cases hx
  | cons a rest ih =>
    by_cases hrest : ∃ x ∈ rest, P x = true
    · obtain ⟨before, z, after, e, hz, hafter⟩ := ih hrest
      exact ⟨a :: before, z, after, by rw [e]; rfl, hz, hafter⟩
    · have hnone : ∀ y ∈ rest, P y = false := by
        intro y hy
        cases hp : P y
        · rfl
        · exact absurd ⟨y, hy, hp⟩ hrest
      obtain ⟨x, hx, hpx⟩ := h
      have ha : P a = true := by
        rcases List.mem_cons.1 hx with e | m
        · rw [← e]; exact hpx
        · rw [hnone x m] at hpx; cases hpx
      exact ⟨[], a, rest, rfl, ha, hnone⟩

/-- C1: for every enumeration whose queries succeed and in which some device
has the GPU bit set, the selection loop succeeds and returns the first
GPU-capable device of the platform-then-device order (no device before it is
GPU-capable, however many CPU-capable ones there are), with the handle of the
platform that lists it. -/
theorem selectDevice_first_gpu (file : String) (platforms : List PlatformInfo)
    (hq : queriesSucceed platforms = true)
    (hgpu : ∃ x ∈ enumerationOrder platforms, gpuCapable x.2 = true) :
    ∃ before x after,
      enumerationOrder platforms = before ++ x :: after ∧
      (∀ y ∈ before, gpuCapable y.2 = false) ∧ gpuCapable x.2 = true ∧
      x.1 ∈ platforms ∧ x.2 ∈ x.1.devices ∧
      ∀ log, (selectDevice file platforms log).1 = .ok (x.1.id, x.2.id) := by
  obtain ⟨before, x, after, e, hb, hx⟩ :=
    exists_first_split (fun x : PlatformInfo × DeviceInfo => gpuCapable x.2) _ hgpu
  have hmem : x ∈ enumerationOrder platforms := by rw [e]; simp
  have hmem2 := (mem_enumerationOrder platforms x).1 hmem
  refine ⟨before, x, after, e, hb, hx, hmem2.1, hmem2.2, ?_⟩
  intro log
  obtain ⟨log1, h⟩ := selectDevice_scan file platforms log hq
  rw [h, e, scan_first_gpu before after x _ hb hx]
  rfl

/-- Witness of `selectDevice_first_gpu`: in `sampleMixed` two CPU devices and
a whole platform precede the first GPU device. -/
theorem selectDevice_first_gpu_witness :
    ∃ before x after,
      enumerationOrder sampleMixed = before ++ x :: after ∧
      (∀ y ∈ before, gpuCapable y.2 = false) ∧ gpuCapable x.2 = true ∧
      x.1 ∈ sampleMixed ∧ x.2 ∈ x.1.devices ∧
      ∀ log, (selectDevice "src/main.cpp" sampleMixed log).1 = .ok (x.1.id, x.2.id) :=
  selectDevice_first_gpu "src/main.cpp" sampleMixed (by decide)
    ⟨({ id := 20, countStatus := 0, idsStatus := 0,
        devices := [{ id := 2, infoStatus := 0, deviceType := 2 },
                    { id := 3, infoStatus := 0, deviceType := 4 },
                    { id := 4, infoStatus := 0, deviceType := 4 }] },
       { id := 3, infoStatus := 0, deviceType := 4 }), by decide, by decide⟩

/-- C2: for every enumeration whose queries succeed, in which no device has
the GPU bit set and some device has the CPU bit set, the selection loop
succeeds and returns the last CPU-capable device of the whole
platform-then-device order (no device after it, on any platform, is
CPU-capable), with the handle of the platform that lists it. -/
theorem selectDevice_last_cpu (file : String) (platforms : List PlatformInfo)
    (hq : queriesSucceed platforms = true)
    (hnogpu : ∀ x ∈ enumerationOrder platforms, gpuCapable x.2 = false)
    (hcpu : ∃ x ∈ enumerationOrder platforms, cpuCapable x.2 = true) :
    ∃ before x after,
      enumerationOrder platforms = before ++ x :: after ∧
      cpuCapable x.2 = true ∧ (∀ y ∈ after, cpuCapable y.2 = false) ∧
      x.1 ∈ platforms ∧ x.2 ∈ x.1.devices ∧
      ∀ log, (selectDevice file platforms log).1 = .ok (x.1.id, x.2.id) := by
  obtain ⟨before, x, after, e, hx, ha⟩ :=
    exists_last_split (fun x : PlatformInfo × DeviceInfo => cpuCapable x.2) _ hcpu
  have hmem : x ∈ enumerationOrder platforms := by rw [e]; simp
  have hmem2 := (mem_enumerationOrder platforms x).1 hmem
  refine ⟨before, x, after, e, hx, ha, hmem2.1, hmem2.2, ?_⟩
  intro log
  obtain ⟨log1, h⟩ := selectDevice_scan file platforms log hq
  rw [h, scan_no_gpu _ _ hnogpu, e, foldl_recordCpu_last before after x _ hx ha]
  rfl

/-- Witness of `selectDevice_last_cpu`: in `sampleCpuOnly` the last CPU device
sits on the second platform, between two accelerators. -/
theorem selectDevice_last_cpu_witness :
    ∃ before x after,
      enumerationOrder sampleCpuOnly = before ++ x :: after ∧
      cpuCapable x.2 = true ∧ (∀ y ∈ after, cpuCapable y.2 = false) ∧
      x.1 ∈ sampleCpuOnly ∧ x.2 ∈ x.1.devices ∧
      ∀ log, (selectDevice "src/main.cpp" sampleCpuOnly log).1 = .ok (x.1.id, x.2.id) :=
  selectDevice_last_cpu "src/main.cpp" sampleCpuOnly (by decide) (by decide)
    ⟨({ id := 10, countStatus := 0, idsStatus := 0,
        devices := [{ id := 1, infoStatus := 0, deviceType := 2 },
                    { id := 2, infoStatus := 0, deviceType := 2 }] },
       { id := 1, infoStatus := 0, deviceType := 2 }), by decide, by decide⟩

/-- C3: for every enumeration whose queries succeed, the selection loop throws
`No device found` exactly when no enumerated device has the GPU bit or the CPU
bit set, and returns a pair whenever some device has one of them; so it throws
for zero platforms, for platforms that all have zero devices, and when every
device is of accelerator class only. -/
theorem selectDevice_fails_iff (file : String) (platforms : List PlatformInfo)
    (log : List Event) (hq : queriesSucceed platforms = true) :
    ((selectDevice file platforms log).1 = .error (Failure.runtime_error "No device found") ↔
      ∀ x ∈ enumerationOrder platforms, gpuCapable x.2 = false ∧ cpuCapable x.2 = false) ∧
    ((∃ x ∈ enumerationOrder platforms, gpuCapable x.2 = true ∨ cpuCapable x.2 = true) →
      ∃ r, (selectDevice file platforms log).1 = .ok r) ∧
    (selectDevice file [] log).1 = .error (Failure.runtime_error "No device found") ∧
    ((∀ platform ∈ platforms, platform.devices = []) →
      (selectDevice file platforms log).1 = .error (Failure.runtime_error "No device found")) ∧
    ((∀ x ∈ enumerationOrder platforms, x.2.deviceType = CL_DEVICE_TYPE_ACCELERATOR) →
      (selectDevice file platforms log).1 = .error (Failure.runtime_error "No device found")) := by
  obtain ⟨log1, h⟩ := selectDevice_scan file platforms log hq
  have hany := scan_any (enumerationOrder platforms) Selection.initial
  have key : (selectDevice file platforms log).1 = .error noDeviceFound ↔
      ∀ x ∈ enumerationOrder platforms, gpuCapable x.2 = false ∧ cpuCapable x.2 = false := by
    rw [h, hany]
    simp only [Selection.initial, Bool.false_or]
    constructor
    · intro hres x hx
      by_contra hcon
      have hex : (enumerationOrder platforms).any (fun x => gpuCapable x.2 || cpuCapable x.2)
          = true := by
        rw [List.any_eq_true]
        refine ⟨x, hx, ?_⟩
        cases hg : gpuCapable x.2 <;> cases hc : cpuCapable x.2 <;> simp_all
      rw [hex] at hres
      cases hres
    · intro hall
      have hex : (enumerationOrder platforms).any (fun x => gpuCapable x.2 || cpuCapable x.2)
          = false := by
        rw [List.any_eq_false]
        intro x hx
        obtain ⟨h1, h2⟩ := hall x hx
        simp [h1, h2]
      rw [hex]
      rfl
  refine ⟨key, ?_, rfl, ?_, ?_⟩
  · rintro ⟨x, hx, hcap⟩
    have hex : (enumerationOrder platforms).any (fun x => gpuCapable x.2 || cpuCapable x.2)
        = true := by
      rw [List.any_eq_true]
      refine ⟨x, hx, ?_⟩
      rcases hcap with h1 | h1 <;> simp [h1]
    rw [h, hany, hex]
    exact ⟨_, rfl⟩
  · intro hempty
    apply key.2
    intro x hx
    have hm := (mem_enumerationOrder platforms x).1 hx
    rw [hempty x.1 hm.1] at hm
    exact nomatch hm.2
  · intro hacc
    apply key.2
    intro x hx
    have ht := hacc x hx
    constructor
    · unfold gpuCapable; rw [ht]; decide
    · unfold cpuCapable; rw [ht]; decide

/-- Witness of `selectDevice_fails_iff` at `sampleAcceleratorOnly`. -/
theorem selectDevice_fails_iff_witness :
    queriesSucceed sampleAcceleratorOnly = true ∧
    ((selectDevice "src/main.cpp" sampleAcceleratorOnly []).1 =
        .error (Failure.runtime_error "No device found") ↔
      ∀ x ∈ enumerationOrder sampleAcceleratorOnly,
        gpuCapable x.2 = false ∧ cpuCapable x.2 = false) ∧
    ((∃ x ∈ enumerationOrder sampleAcceleratorOnly,
        gpuCapable x.2 = true ∨ cpuCapable x.2 = true) →
      ∃ r, (selectDevice "src/main.cpp" sampleAcceleratorOnly []).1 = .ok r) ∧
    (selectDevice "src/main.cpp" [] []).1 = .error (Failure.runtime_error "No device found") ∧
    ((∀ platform ∈ sampleAcceleratorOnly, platform.devices = []) →
      (selectDevice "src/main.cpp" sampleAcceleratorOnly []).1 =
        .error (Failure.runtime_error "No device found")) ∧
    ((∀ x ∈ enumerationOrder sampleAcceleratorOnly,
        x.2.deviceType = CL_DEVICE_TYPE_ACCELERATOR) →
      (selectDevice "src/main.cpp" sampleAcceleratorOnly []).1 =
        .error (Failure.runtime_error "No device found")) :=
  ⟨by decide, selectDevice_fails_iff "src/main.cpp" sampleAcceleratorOnly [] (by decide)⟩

/-! ## Stepping through straight-line code -/

section Stepping

variable {α β : Type}

theorem emit_bind (ev : Event) (k : Unit → M β) (log : List Event) :
    (emit ev >>= k) log = k () (log ++ [ev]) := rfl

theorem pure_bind_apply (a : α) (k : α → M β) (log : List Event) :
    (pure a >>= k) log = k a log := rfl

theorem throw_bind (e : Failure) (k : α → M β) (log : List Event) :
    ((throw e : M α) >>= k) log = (.error e, log) := rfl

theorem reportError_bind (err : Int) (filename : String) (line : Int) (k : Unit → M β)
    (log : List Event) :
    (reportError err filename line >>= k) log =
      if err = CL_SUCCESS then k () log
      else (.error (Failure.runtime_error (errorMessage err filename line)), log) := by
  rw [bind_apply, reportError_apply]
  by_cases h : err = CL_SUCCESS
  · rw [if_pos h, if_pos h]
  · rw [if_neg h, if_neg h]

theorem ite_run (c : Prop) [Decidable c] (m1 m2 : M α) (log : List Event) :
    (if c then m1 else m2) log = if c then m1 log else m2 log := by
  split <;> rfl

theorem bind_ok_inv (m : M α) (k : α → M β) (log log2 : List Event) (b : β)
    (h : (m >>= k) log = (.ok b, log2)) :
    ∃ a log1, m log = (.ok a, log1) ∧ k a log1 = (.ok b, log2) := by
  rw [bind_apply] at h
  rcases hm : m log with ⟨r, l⟩
  rw [hm] at h
  cases r with
  | ok a => exact ⟨a, l, rfl, h⟩
  | error e => cases h

theorem acquired_append (l1 l2 : List Event) : acquired (l1 ++ l2) = acquired l1 ++ acquired l2 :=
  List.filterMap_append _ _ _

theorem released_append (l1 l2 : List Event) : released (l1 ++ l2) = released l1 ++ released l2 :=
  List.filterMap_append _ _ _

end Stepping

/-! ## What each stage acquires and releases -/

theorem createContextQueueBuffers_tracks (d : Driver) (selectedPlatform selectedDevice : Nat) :
    Tracks (createContextQueueBuffers d selectedPlatform selectedDevice)
      [.context, .commandQueue, .a_gpu, .b_gpu, .c_gpu] [] := by
  intro log a log1 h
  unfold createContextQueueBuffers at h
  simp only [emit_bind, reportError_bind, reportError_apply] at h
  split_ifs at h
  all_goals first
    | (cases h; simp [acquired, released, Event.acquires, Event.releases])
    | cases h

theorem buildProgram_apply (d : Driver) (kernelSources : String) (log : List Event)
    (h1 : d.logSizeStatus = CL_SUCCESS) (h2 : d.logStatus = CL_SUCCESS) :
    buildProgram d kernelSources log =
      (if d.buildStatus = CL_SUCCESS then
          (if d.createKernelStatus = CL_SUCCESS then .ok ()
            else .error (Failure.runtime_error (errorMessage d.createKernelStatus d.file 139)))
        else .error (Failure.runtime_error (errorMessage d.buildStatus d.file 135)),
        log ++ [.clCreateProgramWithSource kernelSources, .clBuildProgram,
                .clGetProgramBuildInfo, .clGetProgramBuildInfo] ++
          (if d.log_size > 1 then [.print "Log:", .print (cString d.log)] else []) ++
          (if d.buildStatus = CL_SUCCESS then [.clCreateKernel "xor"] else [])) := by
  unfold buildProgram
  simp only [emit_bind, reportError_bind, h1, h2, if_true, ite_run, reportError_apply]
  by_cases hs : d.log_size > 1 <;> by_cases hb : d.buildStatus = CL_SUCCESS <;>
    by_cases hk : d.createKernelStatus = CL_SUCCESS <;>
    simp [hs, hb, hk, emit_apply, pure_bind_apply, emit_bind, reportError_bind, reportError_apply]

theorem buildProgram_tracks (d : Driver) (kernelSources : String) :
    Tracks (buildProgram d kernelSources) [.program, .kernel] [] := by
  intro log a log1 h
  unfold buildProgram at h
  simp only [emit_bind, reportError_bind, ite_run, reportError_apply, pure_bind_apply] at h
  split_ifs at h
  all_goals first
    | (cases h; simp [acquired, released, Event.acquires, Event.releases])
    | cases h

theorem setKernelArgs_tracks : Tracks setKernelArgs [] [] := by
  intro log a log1 h
  unfold setKernelArgs at h
  simp only [emit_bind, emit_apply] at h
  cases h
  simp [acquired, released, Event.acquires, Event.releases]

theorem freeResources_tracks (d : Driver) :
    Tracks (freeResources d) []
      [.program, .kernel, .a_gpu, .b_gpu, .c_gpu, .commandQueue, .context] := by
  intro log a log1 h
  unfold freeResources at h
  simp only [emit_bind, reportError_bind, reportError_apply] at h
  split_ifs at h
  all_goals first
    | (cases h; simp [acquired, released, Event.acquires, Event.releases])
    | cases h

theorem dispatchLoop_tracks (d : Driver) (global workGroup remaining i : Nat) :
    Tracks (dispatchLoop d global workGroup remaining i) [] [] := by
  induction remaining generalizing i with
  | zero =>
    intro log a log1 h
    cases h
    simp
  | succ k ih =>
    intro log a log1 h
    rw [dispatchLoop] at h
    simp only [emit_bind, reportError_bind] at h
    split_ifs at h
    · have := ih (i + 1) _ a log1 h
      simpa [acquired, released, Event.acquires, Event.releases] using this
    · cases h
    · cases h

theorem readbackLoop_tracks (d : Driver) (bufferSize remaining i : Nat) (cs : Nat → Nat) :
    Tracks (readbackLoop d bufferSize remaining i cs) [] [] := by
  induction remaining generalizing i cs with
  | zero =>
    intro log a log1 h
    cases h
    simp
  | succ k ih =>
    intro log a log1 h
    rw [readbackLoop] at h
    simp only [emit_bind, reportError_bind] at h
    split_ifs at h
    · have := ih (i + 1) _ _ a log1 h
      simpa [acquired, released, Event.acquires, Event.releases] using this
    · cases h
    · cases h

theorem checkResults_tracks (n : Nat) (as bs : Nat → Bool) (cs : Nat → Nat) :
    Tracks (checkResults n as bs cs) [] [] := by
  intro log a log1 h
  rcases checkResults_cases n as bs cs log with ⟨-, h2⟩ | ⟨i, -, -, -, h2⟩
  · rw [h2] at h
    cases h
    rw [acquired_append, released_append, acquired_examinedFrom, released_examinedFrom]
    exact ⟨rfl, rfl⟩
  · rw [h2] at h
    cases h

theorem deviceLoop_tracks (file : String) (platform : Nat) (devices : List DeviceInfo)
    (s : Selection) : Tracks (deviceLoop file platform devices s) [] [] := by
  induction devices generalizing s with
  | nil =>
    intro log a log1 h
    cases h
    simp
  | cons device rest ih =>
    intro log a log1 h
    rw [deviceLoop] at h
    simp only [emit_bind, reportError_bind, ite_run] at h
    split_ifs at h
    · cases h
      simp [acquired, released, Event.acquires, Event.releases]
    · have := ih _ _ a log1 h
      simpa [acquired, released, Event.acquires, Event.releases] using this
    · have := ih _ _ a log1 h
      simpa [acquired, released, Event.acquires, Event.releases] using this
    · cases h

theorem platformLoop_tracks (file : String) (platforms : List PlatformInfo) (s : Selection) :
    Tracks (platformLoop file platforms s) [] [] := by
  induction platforms generalizing s with
  | nil =>
    intro log a log1 h
    cases h
    simp
  | cons platform rest ih =>
    intro log a log1 h
    rw [platformLoop] at h
    simp only [emit_bind, reportError_bind] at h
    split_ifs at h
    · obtain ⟨s1, log2, hd, hk⟩ := bind_ok_inv _ _ _ _ _ h
      have hdev := deviceLoop_tracks file platform.id platform.devices s _ s1 log2 hd
      simp only [acquired_append, released_append] at hdev
      simp only [ite_run] at hk
      split_ifs at hk
      · cases hk
        simpa [acquired, released, Event.acquires, Event.releases] using hdev
      · have := ih s1 log2 a log1 hk
        rw [this.1, this.2, hdev.1, hdev.2]
        simp [acquired, released, Event.acquires, Event.releases]
    · cases h
    · cases h

theorem selectDevice_tracks (file : String) (platforms : List PlatformInfo) :
    Tracks (selectDevice file platforms) [] [] := by
  intro log a log1 h
  unfold selectDevice at h
  obtain ⟨s1, log2, hp, hk⟩ := bind_ok_inv _ _ _ _ _ h
  have hloop := platformLoop_tracks file platforms _ log s1 log2 hp
  simp only [ite_run, throw_bind, pure_bind_apply] at hk
  split_ifs at hk
  · cases hk
  · cases hk
    exact hloop

theorem main_tracks (d : Driver) :
    Tracks (main d) [.context, .commandQueue, .a_gpu, .b_gpu, .c_gpu, .program, .kernel]
      [.program, .kernel, .a_gpu, .b_gpu, .c_gpu, .commandQueue, .context] := by
  intro log a log1 h
  unfold main at h
  simp only [ite_run, throw_bind, pure_bind_apply, emit_bind, reportError_bind] at h
  split_ifs at h
  · cases h
  · obtain ⟨⟨sp, sd⟩, l2, _, h⟩ := bind_ok_inv _ _ _ _ _ h
    obtain ⟨_, l3, _, h⟩ := bind_ok_inv _ _ _ _ _ h
    cases h
  · obtain ⟨⟨sp, sd⟩, l2, hsel, h⟩ := bind_ok_inv _ _ _ _ _ h
    obtain ⟨_, l3, hctx, h⟩ := bind_ok_inv _ _ _ _ _ h
    simp only [pure_bind_apply] at h
    obtain ⟨_, l4, hbuild, h⟩ := bind_ok_inv _ _ _ _ _ h
    obtain ⟨_, l5, hargs, h⟩ := bind_ok_inv _ _ _ _ _ h
    obtain ⟨_, l6, hdisp, h⟩ := bind_ok_inv _ _ _ _ _ h
    obtain ⟨cs, l7, hread, h⟩ := bind_ok_inv _ _ _ _ _ h
    obtain ⟨_, l8, hcheck, h⟩ := bind_ok_inv _ _ _ _ _ h
    obtain ⟨_, l9, hfree, h⟩ := bind_ok_inv _ _ _ _ _ h
    cases h
    have t1 := selectDevice_tracks _ _ _ _ _ hsel
    have t2 := createContextQueueBuffers_tracks _ _ _ _ _ _ hctx
    have t3 := buildProgram_tracks _ _ _ _ _ hbuild
    have t4 := setKernelArgs_tracks _ _ _ hargs
    have t5 := dispatchLoop_tracks _ _ _ _ _ _ _ _ hdisp
    have t6 := readbackLoop_tracks _ _ _ _ _ _ _ _ hread
    have t7 := checkResults_tracks _ _ _ _ _ _ _ hcheck
    have t8 := freeResources_tracks _ _ _ _ hfree
    rw [t8.1, t8.2, t7.1, t7.2, t6.1, t6.2, t5.1, t5.2, t4.1, t4.2, t3.1, t3.2, t2.1, t2.2,
      t1.1, t1.2]
    simp [acquired, released, Event.acquires, Event.releases]
  · cases h
  · cases h

/-! ## Runs in which every check passes -/

theorem dispatchLoop_ok (d : Driver) (global workGroup remaining i : Nat) (log : List Event)
    (h1 : ∀ i, d.enqueueKernelStatus i = CL_SUCCESS)
    (h2 : ∀ i, d.waitKernelStatus i = CL_SUCCESS) :
    ∃ log1, dispatchLoop d global workGroup remaining i log = (.ok (), log1) := by
  induction remaining generalizing i log with
  | zero => exact ⟨log, rfl⟩
  | succ k ih =>
    rw [dispatchLoop]
    simp only [emit_bind, reportError_bind, h1, h2, if_true]
    exact ih _ _

theorem readbackLoop_ok (d : Driver) (bufferSize remaining i : Nat) (cs : Nat → Nat)
    (log : List Event)
    (h1 : ∀ i, d.enqueueReadStatus i = CL_SUCCESS)
    (h2 : ∀ i, d.waitReadStatus i = CL_SUCCESS) :
    ∃ log1, readbackLoop d bufferSize (remaining + 1) i cs log =
      (.ok (d.readBuffer (i + remaining)), log1) := by
  induction remaining generalizing i cs log with
  | zero =>
    rw [readbackLoop]
    simp only [emit_bind, reportError_bind, h1, h2, if_true]
    exact ⟨_, rfl⟩
  | succ k ih =>
    rw [readbackLoop]
    simp only [emit_bind, reportError_bind, h1, h2, if_true]
    obtain ⟨log1, h⟩ := ih (i + 1) (d.readBuffer i) (log ++ [.clEnqueueReadBuffer bufferSize] ++
      [.clWaitForEvents])
    refine ⟨log1, ?_⟩
    rw [h]
    have e : i + 1 + k = i + (k + 1) := by omega
    rw [e]

theorem freeResources_ok (d : Driver) (log : List Event) (h : ChecksPass d) :
    ∃ log1, freeResources d log = (.ok (), log1) := by
  unfold freeResources
  simp only [emit_bind, reportError_bind, reportError_apply, h.releaseProgram, h.releaseKernel,
    h.releaseA, h.releaseB, h.releaseC, h.releaseCommandQueue, h.releaseContext, if_true]
  exact ⟨_, rfl⟩

theorem createContextQueueBuffers_ok (d : Driver) (sp sd : Nat) (log : List Event)
    (h : ChecksPass d) :
    ∃ log1, createContextQueueBuffers d sp sd log = (.ok (), log1) := by
  unfold createContextQueueBuffers
  simp only [emit_bind, reportError_bind, reportError_apply, h.createContext,
    h.createCommandQueue, h.createBufferA, h.createBufferB, h.createBufferC, if_true]
  exact ⟨_, rfl⟩

theorem main_succeeds (d : Driver) (log : List Event) (h : ChecksPass d) :
    ∃ log1, main d log = (.ok 0, log1) := by
  unfold main
  have hinit : ¬ ((!d.ocl_init) = true) := by simp [h.init]
  simp only [ite_run, pure_bind_apply, emit_bind, reportError_bind, if_neg hinit,
    h.platformCount, h.platformIds, if_true]
  obtain ⟨l1, e1⟩ := selectDevice_scan d.file d.platforms
    (log ++ [.clGetPlatformIDs] ++ [.clGetPlatformIDs]) h.queries
  have hdevice :
      (scan (enumerationOrder d.platforms) Selection.initial).anyDeviceSelected = true := by
    obtain ⟨x, hx, hcap⟩ := h.device
    rw [scan_any, Bool.or_eq_true, List.any_eq_true]
    refine Or.inr ⟨x, hx, ?_⟩
    rcases hcap with h1 | h1 <;> simp [h1]
  rw [if_pos hdevice] at e1
  rw [bind_apply, e1]
  simp only
  obtain ⟨l2, e2⟩ := createContextQueueBuffers_ok d
    (scan (enumerationOrder d.platforms) Selection.initial).selectedPlatform
    (scan (enumerationOrder d.platforms) Selection.initial).selectedDevice l1 h
  rw [bind_apply, e2]
  simp only [ite_run, pure_bind_apply, if_neg h.source]
  rw [bind_apply, buildProgram_apply d d.kernelSources l2 h.logSize h.log]
  simp only [h.build, h.createKernel, if_true]
  rw [bind_apply]
  have e4 : ∀ l, setKernelArgs l = (.ok (), l ++ [.clSetKernelArg 0] ++ [.clSetKernelArg 1] ++
      [.clSetKernelArg 2] ++ [.clSetKernelArg 3]) := fun l => rfl
  rw [e4]
  simp only
  obtain ⟨l5, e5⟩ := dispatchLoop_ok d (globalWorkSize d.sizeBits n 128) 128 20 0
    (l2 ++ [.clCreateProgramWithSource d.kernelSources, .clBuildProgram,
      .clGetProgramBuildInfo, .clGetProgramBuildInfo] ++
      (if d.log_size > 1 then [.print "Log:", .print (cString d.log)] else []) ++
      [.clCreateKernel "xor"] ++ [.clSetKernelArg 0] ++ [.clSetKernelArg 1] ++
      [.clSetKernelArg 2] ++ [.clSetKernelArg 3]) h.enqueueKernel h.waitKernel
  rw [bind_apply, e5]
  simp only
  obtain ⟨l6, e6⟩ := readbackLoop_ok d n 19 0 d.csMalloc l5 h.enqueueRead h.waitRead
  rw [bind_apply, e6]
  simp only [Nat.zero_add]
  obtain ⟨l7, e7⟩ : ∃ l, checkResults n d.as d.bs (d.readBuffer 19) l6 = (.ok (), l) := by
    refine ⟨_, checkLoop_pass d.as d.bs (d.readBuffer 19) n 0 l6 ?_⟩
    intro j hj
    rw [Nat.zero_add]
    exact h.verified j hj
  rw [bind_apply, e7]
  simp only
  obtain ⟨l8, e8⟩ := freeResources_ok d l7 h
  rw [bind_apply, e8]
  exact ⟨l8, rfl⟩

theorem sampleDriver_succeeds : ChecksPass sampleDriver where
  init := rfl
  platformCount := rfl
  platformIds := rfl
  queries := by decide
  device := by decide
  createContext := rfl
  createCommandQueue := rfl
  createBufferA := rfl
  createBufferB := rfl
  createBufferC := rfl
  source := by decide
  logSize := rfl
  log := rfl
  build := rfl
  createKernel := rfl
  enqueueKernel := fun _ => rfl
  waitKernel := fun _ => rfl
  enqueueRead := fun _ => rfl
  waitRead := fun _ => rfl
  verified := fun _ _ => rfl
  releaseProgram := rfl
  releaseKernel := rfl
  releaseA := rfl
  releaseB := rfl
  releaseC := rfl
  releaseCommandQueue := rfl
  releaseContext := rfl

theorem failingDriver_succeeds : ChecksPass failingDriver where
  init := rfl
  platformCount := rfl
  platformIds := rfl
  queries := by decide
  device := by decide
  createContext := rfl
  createCommandQueue := rfl
  createBufferA := rfl
  createBufferB := rfl
  createBufferC := rfl
  source := by decide
  logSize := rfl
  log := rfl
  build := rfl
  createKernel := rfl
  enqueueKernel := fun _ => rfl
  waitKernel := fun _ => rfl
  enqueueRead := fun _ => rfl
  waitRead := fun _ => rfl
  verified := fun _ _ => rfl
  releaseProgram := rfl
  releaseKernel := rfl
  releaseA := rfl
  releaseB := rfl
  releaseC := rfl
  releaseCommandQueue := rfl
  releaseContext := rfl

theorem main_run_of_succeeds (d : Driver) (h : ChecksPass d) :
    (main d []).1 = .ok 0 ∧
    acquired (main d []).2 =
      [.context, .commandQueue, .a_gpu, .b_gpu, .c_gpu, .program, .kernel] ∧
    released (main d []).2 =
      [.program, .kernel, .a_gpu, .b_gpu, .c_gpu, .commandQueue, .context] := by
  obtain ⟨log1, e⟩ := main_succeeds d [] h
  have t := main_tracks d [] 0 log1 e
  rw [e]
  exact ⟨rfl, t.1, t.2⟩

/-! ## Status checking -/

theorem dispatchLoop_createProgramStatus (d : Driver) (status : Int)
    (global workGroup remaining i : Nat) :
    dispatchLoop { d with createProgramStatus := status } global workGroup remaining i =
      dispatchLoop d global workGroup remaining i := by
  induction remaining generalizing i with
  | zero => rfl
  | succ k ih =>
    rw [dispatchLoop, dispatchLoop]
    simp only [ih]

theorem readbackLoop_createProgramStatus (d : Driver) (status : Int)
    (bufferSize remaining i : Nat) (cs : Nat → Nat) :
    readbackLoop { d with createProgramStatus := status } bufferSize remaining i cs =
      readbackLoop d bufferSize remaining i cs := by
  induction remaining generalizing i cs with
  | zero => rfl
  | succ k ih =>
    rw [readbackLoop, readbackLoop]
    simp only [ih]

theorem main_createProgramStatus (d : Driver) (status : Int) :
    main { d with createProgramStatus := status } = main d := by
  have e1 : ∀ sp sd, createContextQueueBuffers { d with createProgramStatus := status } sp sd =
      createContextQueueBuffers d sp sd := fun _ _ => rfl
  have e2 : ∀ ks, buildProgram { d with createProgramStatus := status } ks =
      buildProgram d ks := fun _ => rfl
  have e3 : freeResources { d with createProgramStatus := status } = freeResources d := rfl
  unfold main
  simp only [e1, e2, e3, dispatchLoop_createProgramStatus, readbackLoop_createProgramStatus]

/-- C8, the code at the failing input: in the run of `failingDriver` every
call succeeds except `clCreateProgramWithSource`, which reports `-6`; `main`
nevertheless returns `0`.  More generally the outcome and the log of `main` do
not depend on that status at all: it is stored in `errcode` on line 121 and
overwritten on line 138 without ever reaching `reportError`. -/
theorem main_ignores_createProgramStatus :
    failingDriver.createProgramStatus = -6 ∧
    failingDriver.createProgramStatus ≠ CL_SUCCESS ∧
    (main failingDriver []).1 = .ok 0 ∧
    ∀ (d : Driver) (status : Int) (log : List Event),
      main { d with createProgramStatus := status } log = main d log :=
  ⟨rfl, by decide, (main_run_of_succeeds failingDriver failingDriver_succeeds).1,
    fun d status log => congrFun (main_createProgramStatus d status) log⟩

/-! ## Build log and build status -/

theorem cString_terminated (text rest : List Char) (h : ∀ c ∈ text, c ≠ Char.ofNat 0) :
    cString (text ++ Char.ofNat 0 :: rest) = String.mk text := by
  unfold cString
  congr 1
  induction text with
  | nil => simp [List.takeWhile]
  | cons c tail ih =>
    have hc : c ≠ Char.ofNat 0 := h c (List.mem_cons_self _ _)
    have hd : decide (c ≠ Char.ofNat 0) = true := decide_eq_true hc
    rw [List.cons_append, List.takeWhile_cons, hd]
    exact congrArg (List.cons c) (ih (fun x hx => h x (List.mem_cons_of_mem _ hx)))

/-- C9: when both log retrievals succeed and the log buffer holds the text
`text` followed by its terminating NUL, the program builder prints the line
`Log:` and then the line `text` exactly when `log_size > 1`, whatever the build
status is.  With a non-success build status the run then fails with the
`reportError` message carrying that status (line 135), the two printed lines
being already in the log of effects at that point and no kernel having been
created; with a success status it goes on to `clCreateKernel` for the name
`xor`, with or without printed lines, and its outcome is that of the check of
the kernel creation status alone. -/
theorem buildProgram_log_before_status (d : Driver) (kernelSources : String)
    (log : List Event) (text rest : List Char)
    (h1 : d.logSizeStatus = CL_SUCCESS) (h2 : d.logStatus = CL_SUCCESS)
    (hlog : d.log = text ++ Char.ofNat 0 :: rest) (htext : ∀ c ∈ text, c ≠ Char.ofNat 0) :
    (d.buildStatus ≠ CL_SUCCESS →
      buildProgram d kernelSources log =
        (.error (Failure.runtime_error
            ("OpenCL error code " ++ toString d.buildStatus ++ " encountered at " ++ d.file ++
              ":" ++ toString (135 : Int))),
          log ++ [.clCreateProgramWithSource kernelSources, .clBuildProgram,
                  .clGetProgramBuildInfo, .clGetProgramBuildInfo] ++
            (if d.log_size > 1 then [.print "Log:", .print (String.mk text)] else []))) ∧
    (d.buildStatus = CL_SUCCESS →
      (buildProgram d kernelSources log).2 =
          log ++ [.clCreateProgramWithSource kernelSources, .clBuildProgram,
                  .clGetProgramBuildInfo, .clGetProgramBuildInfo] ++
            (if d.log_size > 1 then [.print "Log:", .print (String.mk text)] else []) ++
            [.clCreateKernel "xor"] ∧
      (buildProgram d kernelSources log).1 =
          (reportError d.createKernelStatus d.file 139 []).1) := by
  rw [buildProgram_apply d kernelSources log h1 h2, hlog, cString_terminated text rest htext]
  constructor
  · intro hb
    rw [if_neg hb, if_neg hb, List.append_nil]
    rfl
  · intro hb
    rw [if_pos hb, if_pos hb, reportError_apply]
    exact ⟨rfl, rfl⟩

/-- Witness of the build-log statement on two runs.  In `brokenBuildDriver` the
build fails with `-11` and the log `oops` is on the output when the failure is
raised; in `warningDriver` the build succeeds, the log `warn` is printed and
the kernel `xor` is created all the same. -/
theorem buildProgram_log_before_status_witness :
    buildProgram brokenBuildDriver "source" [] =
      (.error (Failure.runtime_error "OpenCL error code -11 encountered at src/main.cpp:135"),
        [.clCreateProgramWithSource "source", .clBuildProgram, .clGetProgramBuildInfo,
         .clGetProgramBuildInfo, .print "Log:", .print "oops"]) ∧
    (buildProgram warningDriver "source" []).2 =
        [.clCreateProgramWithSource "source", .clBuildProgram, .clGetProgramBuildInfo,
         .clGetProgramBuildInfo, .print "Log:", .print "warn", .clCreateKernel "xor"] ∧
    (buildProgram warningDriver "source" []).1 = .ok () :=
  ⟨(buildProgram_log_before_status brokenBuildDriver "source" [] ['o', 'o', 'p', 's'] []
      rfl rfl rfl (by decide)).1 (by decide),
    (buildProgram_log_before_status warningDriver "source" [] ['w', 'a', 'r', 'n'] []
      rfl rfl rfl (by decide)).2 rfl⟩

/-! ## Teardown -/

theorem sampleDriver_allCallsSucceed : AllCallsSucceed sampleDriver :=
  ⟨sampleDriver_succeeds, rfl, fun _ => rfl⟩

/-- C10, the amended claim: on every run in which every accelerator-API call
succeeds and verification passes, `main` returns `0`, the seven resources are
acquired in the order context, queue, `a`, `b`, `c`, program, kernel, and each
is released exactly once, in the order program, kernel, `a`, `b`, `c`, queue,
context: kernel, program, buffers and queue are all released before the
context, which comes last, but the releases are not the acquisitions reversed,
the program going before the kernel and the buffers in the order of their
creation. -/
theorem main_teardown (d : Driver) (h : AllCallsSucceed d) :
    (main d []).1 = .ok 0 ∧
    acquired (main d []).2 =
      [.context, .commandQueue, .a_gpu, .b_gpu, .c_gpu, .program, .kernel] ∧
    released (main d []).2 =
      [.program, .kernel, .a_gpu, .b_gpu, .c_gpu, .commandQueue, .context] ∧
    (∀ r : Resource, (acquired (main d []).2).count r = 1 ∧
      (released (main d []).2).count r = 1) ∧
    (released (main d []).2).getLast? = some .context ∧
    released (main d []).2 ≠ (acquired (main d []).2).reverse := by
  obtain ⟨h0, ha, hr⟩ := main_run_of_succeeds d h.checks
  rw [ha, hr]
  refine ⟨h0, rfl, rfl, ?_, rfl, by decide⟩
  intro r
  cases r <;> decide

/-- Witness of the teardown statement at `sampleDriver`, a run in which every
call succeeds. -/
theorem main_teardown_witness :
    (main sampleDriver []).1 = .ok 0 ∧
    acquired (main sampleDriver []).2 =
      [.context, .commandQueue, .a_gpu, .b_gpu, .c_gpu, .program, .kernel] ∧
    released (main sampleDriver []).2 =
      [.program, .kernel, .a_gpu, .b_gpu, .c_gpu, .commandQueue, .context] ∧
    (∀ r : Resource, (acquired (main sampleDriver []).2).count r = 1 ∧
      (released (main sampleDriver []).2).count r = 1) ∧
    (released (main sampleDriver []).2).getLast? = some .context ∧
    released (main sampleDriver []).2 ≠ (acquired (main sampleDriver []).2).reverse :=
  main_teardown sampleDriver sampleDriver_allCallsSucceed

/-- C10 as stated fails: in the run of `sampleDriver`, in which every
accelerator-API call succeeds and verification passes, the releases are
program, kernel, `a`, `b`, `c`, queue, context, while the reverse of the
acquisitions is kernel, program, `c`, `b`, `a`, queue, context. -/
theorem main_teardown_not_reverse :
    AllCallsSucceed sampleDriver ∧
    (main sampleDriver []).1 = .ok 0 ∧
    released (main sampleDriver []).2 =
      [.program, .kernel, .a_gpu, .b_gpu, .c_gpu, .commandQueue, .context] ∧
    (acquired (main sampleDriver []).2).reverse =
      [.kernel, .program, .c_gpu, .b_gpu, .a_gpu, .commandQueue, .context] ∧
    released (main sampleDriver []).2 ≠ (acquired (main sampleDriver []).2).reverse := by
  obtain ⟨h0, ha, hr⟩ := main_run_of_succeeds sampleDriver sampleDriver_succeeds
  rw [ha, hr]
  exact ⟨sampleDriver_allCallsSucceed, h0, rfl, rfl, by decide⟩

end XorTwoArrays
